import Mathlib

/-!
Verification of the conversational-agent orchestration layer
(`agentic/agent.py`, `agentic/classification.py`, `agentic/models.py`).

The Python source is shallowly embedded: the LLM ("oracle") is a function
from a prompt string to either a reply or an error, mirroring
`llm.ainvoke` which returns a completion or raises.  Fallible Python code
(developer handlers, the whole workflow run) is embedded with `Except`.
Python dictionaries are embedded as insertion-ordered association lists.
The repository contains two revisions of the agent
(`src/agentic/agent.py` and `src/src/agentic/agent.py`); the two differ
only in the requirement-attempt bookkeeping of `_check_requirements_node`
and in the missing-requirement reply, and both revisions are embedded
(`check_requirements_node` and `check_requirements_node_v2` below).
The pydantic models are embedded field by field; the `metadata`
dictionary (typed `Dict[str, Any]`, never read or written by the agent
code) is omitted.
-/

namespace Agentic

/-- Python `str.isspace` on the ASCII whitespace characters,
as used by `str.strip()`. -/
def pyIsSpace (c : Char) : Bool :=
  c == ' ' || c == '\t' || c == '\n' || c == '\r' || c == '\x0b' || c == '\x0c'

/-- Python `str.strip()`: remove leading and trailing whitespace. -/
def pyStrip (s : String) : String :=
  String.mk (((s.data.dropWhile pyIsSpace).reverse.dropWhile pyIsSpace).reverse)

/-- Python `str.lower()` (ASCII case mapping). -/
def pyLower (s : String) : String :=
  String.mk (s.data.map Char.toLower)

/-- Python `str.upper()` (ASCII case mapping). -/
def pyUpper (s : String) : String :=
  String.mk (s.data.map Char.toUpper)

/-- Python `str.split(",")`: split on every comma, keeping empty pieces. -/
def pySplitComma (s : String) : List String :=
  (s.data.splitOnP (fun c => c == ',')).map String.mk

/-- Does `l` start with `pat`? -/
def listStartsWith : List Char → List Char → Bool
  | [], _ => true
  | _ :: _, [] => false
  | a :: pat, b :: l => a == b && listStartsWith pat l

/-- Does `pat` occur in `l` as a contiguous run? -/
def listContainsSub (pat : List Char) : List Char → Bool
  | [] => listStartsWith pat []
  | b :: l => listStartsWith pat (b :: l) || listContainsSub pat l

/-- Python substring test `pat in s`. -/
def containsSub (s pat : String) : Bool :=
  listContainsSub pat.data s.data

/-- Python `str.replace(old, new)` for one-character arguments. -/
def pyReplaceChar (s : String) (oldChar newChar : Char) : String :=
  String.mk (s.data.map (fun c => if c == oldChar then newChar else c))

/-- From `models.py`: message roles (`Literal["user", "assistant", "system"]`). -/
inductive Role where
  | user
  | assistant
  | system
deriving DecidableEq

/-- From `models.py`: a message in the conversation. -/
structure Message where
  role : Role
  content : String
deriving DecidableEq

/-- From `models.py`: required information for a category. -/
structure CategoryRequirement where
  category : String
  required_fields : List String
deriving DecidableEq

/-- From `models.py`: state object passed through the workflow.
`requirement_attempts` is the per-category attempt dictionary used by the
`src/src` revision of `_check_requirements_node` (the field the spec names
`ConversationState.requirement_attempts`), embedded as an
insertion-ordered association list. -/
structure AgentState where
  messages : List Message := []
  category : Option String := none
  missing_requirements : List String := []
  requirement_attempts : List (String × Nat) := []
  confidence : Option ℚ := none
  needs_escalation : Bool := false
  workflow_step : Option String := none
deriving DecidableEq

/-- From `models.py`: response from custom handlers (`metadata` omitted, unused). -/
structure HandlerResponse where
  messages : List Message
deriving DecidableEq

/-- The text-completion capability: a prompt either yields a reply
(`response.content`) or fails (an exception, carried as a string). -/
def Oracle : Type := String → Except String String

/-- Python `f"{x}"` on an `Optional[str]`: `None` prints as `"None"`. -/
def optStr : Option String → String
  | some s => s
  | none => "None"

/-- Content of `state.messages[-1]` (all call sites have nonempty history). -/
def lastContent (state : AgentState) : String :=
  (state.messages.getLastD { role := Role.user, content := "" }).content

/-- A developer handler: may return a response or raise. -/
def Handler : Type := AgentState → Except String HandlerResponse

/-- From `Agent.handle_low_confidence` default implementation. -/
def defaultHandleLowConfidence (_ : AgentState) : HandlerResponse :=
  { messages := [{ role := Role.assistant, content := "Your request is being reviewed by our team and we\x27ll get back to you shortly." }] }

/-- The developer-supplied configuration of one `Agent` instance:
the overridable methods, the constructor arguments and the handler table. -/
structure AgentConfig where
  classification_categories : List String
  category_requirements : List CategoryRequirement
  personality : String
  knowledge : List String
  available_tools : List String
  confidence_threshold : ℚ
  handlers : List (String × Handler)
  handle_low_confidence : AgentState → HandlerResponse := defaultHandleLowConfidence

/-- Dictionary lookup on the handler table (`category in self.handlers`). -/
def lookupHandler (handlers : List (String × Handler)) (category : String) : Option Handler :=
  (handlers.find? (fun p => p.1 == category)).map Prod.snd

/-- From `Agent.unregister_handler`: `self.handlers.pop(category, None)`. -/
def unregister_handler (handlers : List (String × Handler)) (category : String) :
    List (String × Handler) :=
  handlers.filter (fun p => !(p.1 == category))

/-- From `classification.py`: the classification prompt string. -/
def classificationPrompt (message : String) (categories : List String) : String :=
  let categories_str := String.intercalate ", " categories
  s!"Classify the following user message into ONE of these categories: {categories_str}\n\nInstructions:\n- Choose the most appropriate category based on the user\x27s intent\n- If the message doesn\x27t clearly fit any category, respond with \"default\"\n- Respond with ONLY the category name, nothing else\n\nUser message: \"{message}\"\n\nCategory:"

/-- From `classification.py`: `classify_message_with_llm`.  Empty category list
short-circuits to `"default"`; the oracle reply is stripped and matched
case-insensitively against the declared categories; no match or an oracle
failure yields `"default"`. -/
def classify_message_with_llm (oracle : Oracle) (message : String)
    (categories : List String) : String :=
  if categories.isEmpty then "default"
  else
    match oracle (classificationPrompt message categories) with
    | Except.error _ => "default"
    | Except.ok reply =>
      let classified_category := pyStrip reply
      let classified_lower := pyLower classified_category
      match categories.find? (fun category => pyLower category == classified_lower) with
      | some category => category
      | none => "default"

/-- From `classification.py`: the conversation-context block of the
requirements-analysis prompt (last 5 messages, user/assistant only). -/
def conversationContext (conversation_history : List Message) : String :=
  let recent := conversation_history.drop (conversation_history.length - 5)
  let context_messages := recent.filterMap (fun msg =>
    match msg.role with
    | Role.user => some ("User: " ++ msg.content)
    | Role.assistant => some ("Assistant: " ++ msg.content)
    | Role.system => none)
  if context_messages.isEmpty then ""
  else "\nConversation history:\n" ++ String.intercalate "\n" context_messages ++ "\n"

/-- From `classification.py`: the requirements-analysis prompt string. -/
def analysisPrompt (message fields_str conversation_context : String) : String :=
  s!"Analyze the conversation to determine which required information is present or missing.\n\nRequired fields: {fields_str}{conversation_context}\nCurrent message: \"{message}\"\n\nInstructions:\n- Look at the ENTIRE conversation history, not just the current message\n- For each required field, determine if ANY message in the conversation contains that information\n- Be strict about requiring actionable troubleshooting information\n- Examples of sufficient problem_details (CREATE TICKET):\n  * Includes error messages: \"shows error code 0x123\", \"displays \x27disk not found\x27\"\n  * Includes troubleshooting steps tried: \"won\x27t turn on, no lights, tried different power cable\"\n  * Includes specific triggers: \"crashes every time I click File menu\"\n- Examples of insufficient problem_details (ASK FOR MORE):\n  * Basic symptoms only: \"won\x27t turn on\", \"isn\x27t blowing cold air\", \"not working\", \"runs slow\"\n  * Missing context: \"keeps crashing\", \"overheating\", \"making noise\"\n- ALWAYS ask for more details unless the message includes error messages, troubleshooting steps, or specific triggers\n  * account_number: any account identifier or number\n  * username: any username, email, or user identifier\n- List only the MISSING fields (fields not present anywhere in the conversation)\n- If all fields are present, respond with \"NONE\"\n- Respond with missing field names separated by commas, or \"NONE\"\n\nMissing fields:"

/-- From `classification.py`: `check_requirements_with_llm`.  The `category`
argument is `state.category`, an `Optional[str]` in the source, and the
table lookup is Python `==` (so `None` matches no entry).  A category with
no entry or no required fields is satisfied without consulting the oracle;
oracle failure fails safe, reporting every declared field missing; oracle
replies are split on commas, stripped, and filtered against the declared
field set. -/
def check_requirements_with_llm (oracle : Oracle) (message : String)
    (category : Option String) (requirements : List CategoryRequirement)
    (conversation_history : List Message) : Bool × List String :=
  match requirements.find? (fun req => some req.category == category) with
  | none => (true, [])
  | some category_reqs =>
    if category_reqs.required_fields.isEmpty then (true, [])
    else
      let fields_str := String.intercalate ", " category_reqs.required_fields
      match oracle (analysisPrompt message fields_str (conversationContext conversation_history)) with
      | Except.error _ => (false, category_reqs.required_fields)
      | Except.ok reply =>
        let result := pyStrip reply
        if pyUpper result == "NONE" then (true, [])
        else
          let missing_fields := ((pySplitComma result).map pyStrip).filter (fun f => !(f == ""))
          let valid_missing := missing_fields.filter
            (fun f => category_reqs.required_fields.contains f)
          (valid_missing.isEmpty, valid_missing)

/-- From `system_prompts.py` `CONVERSATION_THREAD_PROMPT` (identical to the
inline prompt of `Agent._is_new_conversation_thread` in `src/agentic`). -/
def conversationThreadPrompt (recent_context current_message : String) : String :=
  s!"Determine if the current message starts a NEW conversation topic or continues the EXISTING topic.\n\nRecent conversation context: {recent_context}\nCurrent message: {current_message}\n\nRules:\n- If the current message introduces a COMPLETELY DIFFERENT problem/service area, respond \"NEW\"\n- If the current message continues the same issue, provides requested information, or gives more details, respond \"CONTINUE\"\n- Be CONSERVATIVE - when in doubt, choose \"CONTINUE\"\n- Examples of NEW: switching from billing issues to technical support, from AC problems to computer problems\n- Examples of CONTINUE: providing account numbers, describing symptoms, giving error details, clarifying previous statements\n\nRespond with only \"NEW\" or \"CONTINUE\":"

/-- From `Agent._is_new_conversation_thread`: at most one message, or no user
message in `messages[-4:-1]`, is always a new thread; otherwise one
oracle call answers `"NEW"` or anything else; oracle failure defaults to
continuation (`False`). -/
def is_new_conversation_thread (oracle : Oracle) (state : AgentState) : Bool :=
  if state.messages.length ≤ 1 then true
  else
    let current_message := lastContent state
    let window := state.messages.dropLast
    let window := window.drop (window.length - 3)
    let recent_messages := (window.filter (fun msg => msg.role == Role.user)).map Message.content
    if recent_messages.isEmpty then true
    else
      let recent_context := String.intercalate " | " recent_messages
      match oracle (conversationThreadPrompt recent_context current_message) with
      | Except.ok reply => pyUpper (pyStrip reply) == "NEW"
      | Except.error _ => false

/-- From `Agent._classify_node` (`src/agentic` revision): consult the
thread-continuity detector, clear `missing_requirements` (and on a new
topic also `category`), then classify unless no categories are
configured. -/
def classify_node (cfg : AgentConfig) (oracle : Oracle) (state : AgentState) : AgentState :=
  let state := { state with workflow_step := some "classify" }
  let last_message := lastContent state
  let state :=
    if is_new_conversation_thread oracle state then
      { state with missing_requirements := [], category := none }
    else
      { state with missing_requirements := [] }
  if cfg.classification_categories.isEmpty then
    { state with category := some "default" }
  else
    { state with category := some (classify_message_with_llm oracle last_message cfg.classification_categories) }

/-- From `Agent._classify_node` (`src/src/agentic` revision): same as
`classify_node`, but a new topic resets `requirement_attempts` to the
empty dictionary instead of clearing `category`. -/
def classify_node_v2 (cfg : AgentConfig) (oracle : Oracle) (state : AgentState) : AgentState :=
  let state := { state with workflow_step := some "classify" }
  let last_message := lastContent state
  let state :=
    if is_new_conversation_thread oracle state then
      { state with missing_requirements := [], requirement_attempts := [] }
    else
      { state with missing_requirements := [] }
  if cfg.classification_categories.isEmpty then
    { state with category := some "default" }
  else
    { state with category := some (classify_message_with_llm oracle last_message cfg.classification_categories) }

/-- From `Agent._check_requirements_node` (`src/agentic` revision): the
question-word list used to count prior clarification requests. -/
def questionWords : List String :=
  ["could you", "please tell", "can you provide", "what", "which", "need"]

/-- One assistant message counts as a prior information request when its
lowercased content contains any of the question words. -/
def isRequirementRequest (content : String) : Bool :=
  let content_lower := pyLower content
  questionWords.any (fun word => containsSub content_lower word)

/-- From `Agent._generate_missing_requirements_response` prompt
(`src/agentic` revision). -/
def missingRequirementsPrompt (user_message fields_joined : String) : String :=
  s!"You are a helpful assistant in a casual chat conversation.\n\nThe user said: \"{user_message}\"\nYou need this missing info: {fields_joined}\n\nRespond in 1-2 short sentences asking for what you need. Be direct and professional. Don\x27t use phrases like \"Oh no\", \"that\x27s frustrating\", or other emotional reactions. Just ask for the information you need.\n\nResponse:"

/-- From `Agent._generate_missing_requirements_response` (`src/agentic`
revision): one oracle call; on failure fall back to fixed chat-style
phrasings. -/
def generate_missing_requirements_response (oracle : Oracle) (_category : Option String)
    (missing_fields : List String) (user_message : String) : String :=
  match oracle (missingRequirementsPrompt user_message (String.intercalate ", " missing_fields)) with
  | Except.ok reply => reply
  | Except.error _ =>
    match missing_fields with
    | [field] => s!"I can help with that! What\x27s your {field}?"
    | _ =>
      let fields_text :=
        if missing_fields.length > 1 then
          String.intercalate ", " missing_fields.dropLast ++ ", and " ++ missing_fields.getLastD ""
        else missing_fields.headD ""
      s!"I can help! I just need your {fields_text}."

/-- From `Agent._generate_missing_requirements_response` (`src/src/agentic`
revision): no oracle call; field-specific template per category+field,
generic fallback naming the first missing field. -/
def generate_missing_requirements_response_v2 (category : Option String)
    (missing_fields : List String) (_user_message : String) : String :=
  match missing_fields with
  | [] => "I have all the information I need. Let me help you with that."
  | field :: _ =>
    let field_display := pyReplaceChar field '_' ' '
    if category == some "TechnicalSupport" && field == "problem_details" then
      "Could you describe the technical issue you\x27re experiencing? Please include any error messages or specific symptoms."
    else if category == some "BillingInquiry" && field == "account_number" then
      "I\x27ll need your account number to assist with billing matters. You can find this on your billing statement or customer portal."
    else if category == some "AccountAccess" && field == "username" then
      "What username are you having trouble accessing?"
    else
      s!"Could you please provide your {field_display}?"

/-- From `Agent._check_requirements_node` (`src/agentic` revision): run the
requirement checker; when unsatisfied, count prior assistant
clarification requests and either escalate (append the low-confidence
handler messages, set `needs_escalation`) or append one follow-up
question. -/
def check_requirements_node (cfg : AgentConfig) (oracle : Oracle) (state : AgentState) :
    AgentState :=
  let state := { state with workflow_step := some "check_requirements" }
  let last_message := lastContent state
  let checked := check_requirements_with_llm oracle last_message state.category
    cfg.category_requirements state.messages
  let requirements_met := checked.1
  let missing_fields := checked.2
  let state := { state with missing_requirements := missing_fields }
  if requirements_met then state
  else
    let requirement_requests := (state.messages.filter
      (fun msg => msg.role == Role.assistant && isRequirementRequest msg.content)).length
    if requirement_requests ≥ 2 then
      let state := { state with needs_escalation := true }
      { state with messages := state.messages ++ (cfg.handle_low_confidence state).messages }
    else
      let conversational_response := generate_missing_requirements_response oracle
        state.category missing_fields last_message
      { state with messages := state.messages ++ [{ role := Role.assistant, content := conversational_response }] }

/-- Dictionary read with default (`requirement_attempts.get(key, 0)`-style). -/
def dictGetD (d : List (String × Nat)) (k : String) (v0 : Nat) : Nat :=
  match d.find? (fun p => p.1 == k) with
  | some p => p.2
  | none => v0

/-- Dictionary write: update in place when the key exists, else append
(Python dict insertion-order semantics). -/
def dictInsert (d : List (String × Nat)) (k : String) (v : Nat) : List (String × Nat) :=
  if (d.find? (fun p => p.1 == k)).isSome then
    d.map (fun p => if p.1 == k then (p.1, v) else p)
  else d ++ [(k, v)]

/-- From `Agent._check_requirements_node` (`src/src/agentic` revision): when
unsatisfied, increment `requirement_attempts[session_key]` (initialised
to 0 when absent); if the incremented count exceeds `max_attempts = 2`,
escalate by appending the low-confidence handler messages, else append
one field-specific follow-up question. -/
def check_requirements_node_v2 (cfg : AgentConfig) (oracle : Oracle) (state : AgentState) :
    AgentState :=
  let state := { state with workflow_step := some "check_requirements" }
  let last_message := lastContent state
  let checked := check_requirements_with_llm oracle last_message state.category
    cfg.category_requirements state.messages
  let requirements_met := checked.1
  let missing_fields := checked.2
  let state := { state with missing_requirements := missing_fields }
  if requirements_met then state
  else
    let session_key := optStr state.workflow_step ++ "_" ++ optStr state.category ++ "_requirements"
    let incremented := dictInsert state.requirement_attempts session_key
      (dictGetD state.requirement_attempts session_key 0 + 1)
    let state := { state with requirement_attempts := incremented }
    let max_attempts := 2
    if dictGetD state.requirement_attempts session_key 0 > max_attempts then
      let state := { state with needs_escalation := true }
      { state with messages := state.messages ++ (cfg.handle_low_confidence state).messages }
    else
      let conversational_response := generate_missing_requirements_response_v2
        state.category missing_fields last_message
      { state with messages := state.messages ++ [{ role := Role.assistant, content := conversational_response }] }

/-- From `Agent._route_node`: a pure decision node. -/
def route_node (state : AgentState) : AgentState :=
  { state with workflow_step := some "route" }

/-- From `Agent._execute_handler_node`: dispatch into the registered handler
for the classified category (if any) and append its messages.  A handler
exception propagates out of the node uncaught. -/
def execute_handler_node (cfg : AgentConfig) (state : AgentState) : Except String AgentState :=
  let state := { state with workflow_step := some "execute_handler" }
  match state.category with
  | none => Except.ok state
  | some c =>
    match lookupHandler cfg.handlers c with
    | none => Except.ok state
    | some handler =>
      match handler state with
      | Except.error e => Except.error e
      | Except.ok response =>
        Except.ok { state with messages := state.messages ++ response.messages }

/-- From `Agent._generate_response` (`src/agentic` revision): the completion
prompt composed of personality, knowledge list, tool names, rendered
conversation history and the status-request guidance. -/
def generateResponsePrompt (cfg : AgentConfig) (messages : List Message) : String :=
  let prompt := cfg.personality
  let prompt :=
    if cfg.knowledge.isEmpty then prompt
    else prompt ++ "\n\nKnowledge: " ++ String.intercalate ", " cfg.knowledge
  let prompt :=
    if cfg.available_tools.isEmpty then prompt
    else prompt ++ "\n\nTools: " ++ String.intercalate ", " cfg.available_tools
  let prompt := prompt ++ "\n\nConversation history (use this context to provide relevant responses):"
  let prompt := messages.foldl (fun acc msg =>
    acc ++ "\n" ++ (if msg.role == Role.user then "User" else "Assistant") ++ ": " ++ msg.content) prompt
  let prompt := prompt ++ "\n\nImportant: If the user asks about request status, ticket status, or \x27my request\x27, refer to any tickets mentioned in the conversation history above. Be helpful and reference specific ticket IDs if they were mentioned."
  prompt ++ "\nAssistant:"

/-- From `Agent._generate_response`: one oracle call; a failure is caught
inside the function and becomes the text `f"Error: {str(e)}"`. -/
def generate_response (cfg : AgentConfig) (oracle : Oracle) (messages : List Message) : String :=
  match oracle (generateResponsePrompt cfg messages) with
  | Except.ok reply => reply
  | Except.error e => "Error: " ++ e

/-- From `Agent._generate_response_node`: append the generated text as an
assistant message. -/
def generate_response_node (cfg : AgentConfig) (oracle : Oracle) (state : AgentState) :
    AgentState :=
  let state := { state with workflow_step := some "generate_response" }
  let response := generate_response cfg oracle state.messages
  { state with messages := state.messages ++ [{ role := Role.assistant, content := response }] }

/-- From `Agent._score_confidence_node`: `confidence = len(last_response)/100`,
`needs_escalation = confidence < threshold`. -/
def score_confidence_node (cfg : AgentConfig) (state : AgentState) : AgentState :=
  let state := { state with workflow_step := some "score_confidence" }
  if state.messages.isEmpty then state
  else
    let last_response := lastContent state
    let confidence : ℚ := mkRat last_response.length 100
    { state with confidence := some confidence,
                 needs_escalation := decide (confidence < cfg.confidence_threshold) }

/-- From `Agent._escalate_node`: `state.messages[-1:] = escalation_response.messages`
replaces the just-appended low-confidence message. -/
def escalate_node (cfg : AgentConfig) (state : AgentState) : AgentState :=
  let state := { state with workflow_step := some "escalate" }
  let escalation_response := cfg.handle_low_confidence state
  { state with messages := state.messages.dropLast ++ escalation_response.messages }

/-- From `Agent._should_check_requirements`: route to the requirement check
only for a truthy, non-default classified category with categories
configured. -/
def should_check_requirements (cfg : AgentConfig) (state : AgentState) : Bool :=
  match state.category with
  | none => false
  | some c => !cfg.classification_categories.isEmpty && !(c == "") && !(c == "default" || c == "")

/-- From `Agent._requirements_met`: `true` routes on to `route`, `false` ends
the turn (the requirements message was already appended). -/
def requirements_met_route (state : AgentState) : Bool :=
  state.missing_requirements.isEmpty

/-- From `Agent._has_custom_handler`. -/
def has_custom_handler (cfg : AgentConfig) (state : AgentState) : Bool :=
  match state.category with
  | none => false
  | some c => !(c == "") && (lookupHandler cfg.handlers c).isSome

/-- The `generate_response → score_confidence → (escalate | end)` tail of
the workflow graph. -/
def generate_score_escalate (cfg : AgentConfig) (oracle : Oracle) (state : AgentState) :
    AgentState :=
  let scored := score_confidence_node cfg (generate_response_node cfg oracle state)
  if scored.needs_escalation then escalate_node cfg scored else scored

/-- One full workflow run (`src/agentic` revision) on the state with the
user message of the turn already appended by `chat`: the compiled LangGraph
edges `classify → (check_requirements | generate_response)`,
`check_requirements → (route | END)`, `route → (execute_handler |
generate_response)`, `execute_handler → END`,
`generate_response → score_confidence → (escalate | END)`.
The only uncaught exception source inside the workflow is a developer
handler. -/
def run_workflow (cfg : AgentConfig) (oracle : Oracle) (state : AgentState) :
    Except String AgentState :=
  let s1 := classify_node cfg oracle state
  if should_check_requirements cfg s1 then
    let s2 := check_requirements_node cfg oracle s1
    if requirements_met_route s2 then
      let s3 := route_node s2
      if has_custom_handler cfg s3 then execute_handler_node cfg s3
      else Except.ok (generate_score_escalate cfg oracle s3)
    else Except.ok s2
  else Except.ok (generate_score_escalate cfg oracle s1)

/-- From `Agent.chat` lines 143-162: append the stripped incoming message to
the existing per-user state (or a fresh one). -/
def appended_state (prior : AgentState) (message : String) : AgentState :=
  { prior with messages := prior.messages ++ [{ role := Role.user, content := pyStrip message }] }

/-- One turn as driven by `Agent.chat`: append the user message, run the
workflow. -/
def chat_turn (cfg : AgentConfig) (oracle : Oracle) (prior : AgentState) (message : String) :
    Except String AgentState :=
  run_workflow cfg oracle (appended_state prior message)

/-- From `Agent.chat` response extraction: the content of the last message of
the result, with the fixed fallback for an empty result. -/
def extract_response (result : AgentState) : String :=
  match result.messages.getLast? with
  | some last_message => last_message.content
  | none => "I apologize, but I couldn\x27t process your request."

/-- The fixed apology `chat` returns when the workflow run raises. -/
def workflowErrorApology : String :=
  "I apologize, but I encountered an error while processing your request. Please try again."

/-- From `Agent.chat`: validate the inputs (raising `ValueError`, modelled as
`Except.error`), run one turn on the stored state, extract the reply;
any exception escaping the workflow run is caught and converted into the
fixed apology text. -/
def chat (cfg : AgentConfig) (oracle : Oracle) (prior : Option AgentState)
    (message user_id : String) : Except String String :=
  if pyStrip message = "" then Except.error "Message must be a non-empty string"
  else if pyStrip user_id = "" then Except.error "User ID must be a non-empty string"
  else
    let current_state := match prior with
      | some s => s
      | none => {}
    match chat_turn cfg oracle current_state message with
    | Except.ok result => Except.ok (extract_response result)
    | Except.error _ => Except.ok workflowErrorApology

/-! Concrete fixtures used by witnesses: a minimal configuration with no
categories and a zero confidence threshold, and a constant oracle. -/

def wcfg : AgentConfig :=
  { classification_categories := []
    category_requirements := []
    personality := "You are a helpful assistant."
    knowledge := []
    available_tools := []
    confidence_threshold := mkRat 0 1
    handlers := [] }

def woracle : Oracle := fun _ => Except.ok "ok"

/-- The state `chat_turn wcfg woracle {} "hi"` ends in. -/
def wresult : AgentState :=
  { messages := [{ role := Role.user, content := "hi" },
      { role := Role.assistant, content := "ok" }]
    category := some "default"
    missing_requirements := []
    requirement_attempts := []
    confidence := some (mkRat 2 100)
    needs_escalation := false
    workflow_step := some "score_confidence" }

/-- Configuration with a registered handler that raises. -/
def c6cfg : AgentConfig :=
  { wcfg with
      classification_categories := ["Billing"],
      handlers := [("Billing", fun _ => Except.error "Handler error")] }

/-- Error detail string used in the C7 counterexample; with the `Error: `
marker it is 72 characters, above the default 70-character confidence
bar. -/
def c7detail : String :=
  "connection to oracle failed with status 500 internal server error"

/-- Fixture for the C1 witness: a `Billing` category with one declared
required field and a state already carrying two failed attempts. -/
def c1cfg : AgentConfig :=
  { wcfg with
      classification_categories := ["Billing"],
      category_requirements := [{ category := "Billing", required_fields := ["account_number"] }] }

def c1oracle : Oracle := fun _ => Except.ok "account_number"

def c1state : AgentState :=
  { messages := [{ role := Role.user, content := "I have a billing problem" }]
    category := some "Billing"
    requirement_attempts := [("check_requirements_Billing_requirements", 2)] }

/-! Helper lemmas. -/

theorem dropWhile_head?_false (p : Char → Bool) :
    ∀ (l : List Char) (c : Char), (l.dropWhile p).head? = some c → p c = false := by
  intro l c h
  induction l with
  | nil => simp [List.dropWhile] at h
  | cons a t ih =>
    rw [List.dropWhile_cons] at h
    split at h
    · exact ih h
    · simp only [List.head?_cons, Option.some.injEq] at h
      subst h
      simp_all

theorem dropWhile_eq_drop (p : Char → Bool) :
    ∀ l : List Char, ∃ n, l.dropWhile p = l.drop n := by
  intro l
  induction l with
  | nil => exact ⟨0, rfl⟩
  | cons a t ih =>
    rw [List.dropWhile_cons]
    split
    · obtain ⟨n, hn⟩ := ih
      exact ⟨n + 1, hn⟩
    · exact ⟨0, rfl⟩

theorem getLast?_drop_some :
    ∀ (n : Nat) (l : List Char) (c : Char), (l.drop n).getLast? = some c → l.getLast? = some c := by
  intro n
  induction n with
  | zero => intro l c h; simpa using h
  | succ n ih =>
    intro l c h
    match l with
    | [] => simp at h
    | a :: t =>
      have ht : t.getLast? = some c := ih t c h
      match t with
      | [] => simp at ht
      | b :: t2 => rw [List.getLast?_cons_cons]; exact ht

/-- A nonempty stripped string starts with a non-whitespace character. -/
theorem pyStrip_head_not_space (s : String) (c : Char)
    (h : (pyStrip s).data.head? = some c) : pyIsSpace c = false := by
  unfold pyStrip at h
  simp only [List.head?_reverse] at h
  obtain ⟨n, hn⟩ := dropWhile_eq_drop pyIsSpace (s.data.dropWhile pyIsSpace).reverse
  rw [hn] at h
  have h2 := getLast?_drop_some n _ c h
  rw [List.getLast?_reverse] at h2
  exact dropWhile_head?_false pyIsSpace _ c h2

/-- A nonempty stripped string ends with a non-whitespace character. -/
theorem pyStrip_getLast_not_space (s : String) (c : Char)
    (h : (pyStrip s).data.getLast? = some c) : pyIsSpace c = false := by
  unfold pyStrip at h
  rw [List.getLast?_reverse] at h
  exact dropWhile_head?_false pyIsSpace _ c h

/-! C3 — classification closure. -/

/-- C3: for every message and category list, `classify_message_with_llm`
returns a declared category (with its declared spelling, matched
case-insensitively) or the sentinel `"default"`; an empty category list,
an oracle failure, or an unmatched oracle reply each yield `"default"`.
The function is total (it returns a `String`, not an `Except`), so no
oracle error ever propagates to the caller. -/
theorem classification_closure :
    (∀ (oracle : Oracle) (message : String) (categories : List String),
      classify_message_with_llm oracle message categories = "default" ∨
        classify_message_with_llm oracle message categories ∈ categories) ∧
    (∀ (oracle : Oracle) (message : String),
      classify_message_with_llm oracle message [] = "default") ∧
    (∀ (oracle : Oracle) (message : String) (categories : List String) (e : String),
      oracle (classificationPrompt message categories) = Except.error e →
      classify_message_with_llm oracle message categories = "default") ∧
    (∀ (oracle : Oracle) (message : String) (categories : List String) (reply : String),
      oracle (classificationPrompt message categories) = Except.ok reply →
      (∀ c ∈ categories, pyLower c ≠ pyLower (pyStrip reply)) →
      classify_message_with_llm oracle message categories = "default") ∧
    (∀ (oracle : Oracle) (message : String) (categories : List String) (reply c : String),
      oracle (classificationPrompt message categories) = Except.ok reply →
      categories.find? (fun category => pyLower category == pyLower (pyStrip reply)) = some c →
      classify_message_with_llm oracle message categories = c) := by
  refine ⟨?_, ?_, ?_, ?_, ?_⟩
  · intro oracle message categories
    unfold classify_message_with_llm
    split
    · exact Or.inl rfl
    · split
      · exact Or.inl rfl
      · dsimp only
        split
        · next c hfind => exact Or.inr (List.mem_of_find?_eq_some hfind)
        · exact Or.inl rfl
  · intro oracle message
    rfl
  · intro oracle message categories e he
    unfold classify_message_with_llm
    split
    · rfl
    · rw [he]
  · intro oracle message categories reply hok hnone
    unfold classify_message_with_llm
    split
    · rfl
    · rw [hok]
      have hfind : categories.find?
          (fun category => pyLower category == pyLower (pyStrip reply)) = none := by
        rw [List.find?_eq_none]
        intro c hc
        simpa using hnone c hc
      dsimp only
      rw [hfind]
  · intro oracle message categories reply c hok hfind
    have hne : ¬categories.isEmpty := by
      rcases categories with _ | ⟨a, t⟩
      · simp at hfind
      · simp
    unfold classify_message_with_llm
    rw [if_neg hne, hok]
    dsimp only
    rw [hfind]

/-- C3 witness: a matching reply is returned with its declared spelling;
an oracle failure collapses to `"default"`. -/
theorem classification_closure_witness :
    classify_message_with_llm (fun _ => Except.ok " billing ") "hi" ["Billing"] = "Billing" ∧
    classify_message_with_llm (fun _ => Except.error "boom") "hi" ["Billing"] = "default" :=
  ⟨classification_closure.2.2.2.2 (fun _ => Except.ok " billing ") "hi" ["Billing"]
      " billing " "Billing" rfl rfl,
    classification_closure.2.2.1 (fun _ => Except.error "boom") "hi" ["Billing"] "boom" rfl⟩

/-! C4 — requirement-checker validity. -/

/-- C4: the missing-field list of `check_requirements_with_llm` is always
a subset of the declared required fields of the entry of the category; a
category without an entry, or with an empty field set, is satisfied (and
in those branches the oracle is never consulted, as the conclusion is
independent of the oracle); an oracle failure reports exactly the
declared required fields; and the satisfied flag holds exactly when the
validated missing list is empty. -/
theorem requirement_validity :
    (∀ (oracle : Oracle) (message : String) (category : Option String)
        (requirements : List CategoryRequirement) (history : List Message) (f : String),
      f ∈ (check_requirements_with_llm oracle message category requirements history).2 →
      ∃ req, requirements.find? (fun r => some r.category == category) = some req ∧
        f ∈ req.required_fields) ∧
    (∀ (oracle : Oracle) (message : String) (category : Option String)
        (requirements : List CategoryRequirement) (history : List Message),
      requirements.find? (fun r => some r.category == category) = none →
      check_requirements_with_llm oracle message category requirements history = (true, [])) ∧
    (∀ (oracle : Oracle) (message : String) (category : Option String)
        (requirements : List CategoryRequirement) (history : List Message)
        (req : CategoryRequirement),
      requirements.find? (fun r => some r.category == category) = some req →
      req.required_fields = [] →
      check_requirements_with_llm oracle message category requirements history = (true, [])) ∧
    (∀ (oracle : Oracle) (message : String) (category : Option String)
        (requirements : List CategoryRequirement) (history : List Message)
        (req : CategoryRequirement) (e : String),
      requirements.find? (fun r => some r.category == category) = some req →
      req.required_fields ≠ [] →
      oracle (analysisPrompt message (String.intercalate ", " req.required_fields)
        (conversationContext history)) = Except.error e →
      check_requirements_with_llm oracle message category requirements history =
        (false, req.required_fields)) ∧
    (∀ (oracle : Oracle) (message : String) (category : Option String)
        (requirements : List CategoryRequirement) (history : List Message),
      (check_requirements_with_llm oracle message category requirements history).1 = true ↔
      (check_requirements_with_llm oracle message category requirements history).2 = []) := by
  refine ⟨?_, ?_, ?_, ?_, ?_⟩
  · intro oracle message category requirements history f hf
    unfold check_requirements_with_llm at hf
    split at hf
    · simp at hf
    · next req hfind =>
      refine ⟨req, hfind, ?_⟩
      split at hf
      · simp at hf
      · dsimp only at hf
        split at hf
        · exact hf
        · split at hf
          · simp at hf
          · have := List.mem_filter.mp hf
            simpa [List.contains, List.elem_eq_mem] using this.2
  · intro oracle message category requirements history hfind
    unfold check_requirements_with_llm
    rw [hfind]
  · intro oracle message category requirements history req hfind hempty
    unfold check_requirements_with_llm
    rw [hfind]
    dsimp only
    simp [hempty]
  · intro oracle message category requirements history req e hfind hne horacle
    unfold check_requirements_with_llm
    rw [hfind]
    dsimp only
    rw [if_neg (by simpa [List.isEmpty_iff] using hne)]
    rw [horacle]
  · intro oracle message category requirements history
    unfold check_requirements_with_llm
    split
    · simp
    · next req hfind =>
      split
      · simp
      · next hne =>
        dsimp only
        split
        · next e horacle =>
          have : req.required_fields ≠ [] := by
            simpa [List.isEmpty_iff] using hne
          simpa using this
        · split
          · simp
          · dsimp only
            simp [List.isEmpty_iff]

/-- C4 witness: oracle failure reports all declared fields missing; an
invented field in the reply is discarded; satisfied exactly when the
validated missing list is empty. -/
theorem requirement_validity_witness :
    check_requirements_with_llm (fun _ => Except.error "down") "x" (some "Billing")
      [{ category := "Billing", required_fields := ["account_number"] }] [] =
      (false, ["account_number"]) ∧
    ((check_requirements_with_llm (fun _ => Except.ok "NONE") "x" (some "Billing")
      [{ category := "Billing", required_fields := ["account_number"] }] []).1 = true) ∧
    (∃ req, ([{ category := "Billing", required_fields := ["account_number"] }] :
        List CategoryRequirement).find? (fun r => some r.category == some "Billing") = some req ∧
      "account_number" ∈ req.required_fields) :=
  ⟨requirement_validity.2.2.2.1 (fun _ => Except.error "down") "x" (some "Billing")
      [{ category := "Billing", required_fields := ["account_number"] }] []
      { category := "Billing", required_fields := ["account_number"] } "down" rfl
      (by simp) rfl,
    (requirement_validity.2.2.2.2 (fun _ => Except.ok "NONE") "x" (some "Billing")
      [{ category := "Billing", required_fields := ["account_number"] }] []).mpr rfl,
    requirement_validity.1 (fun _ => Except.ok " account_number , bogus_field ") "x"
      (some "Billing") [{ category := "Billing", required_fields := ["account_number"] }] []
      "account_number" (by simp [show (check_requirements_with_llm
        (fun _ => Except.ok " account_number , bogus_field ") "x" (some "Billing")
        [{ category := "Billing", required_fields := ["account_number"] }] []).2 =
        ["account_number"] from rfl])⟩

/-! C9 — unregister_handler never fails. -/

/-- C9: `unregister_handler` is total (it never raises): it removes the
entry for the given category when present, is a no-op when the category
is not registered, and leaves every other entry unchanged. -/
theorem unregister_handler_total :
    (∀ (handlers : List (String × Handler)) (category : String),
      lookupHandler (unregister_handler handlers category) category = none) ∧
    (∀ (handlers : List (String × Handler)) (category other : String),
      other ≠ category →
      lookupHandler (unregister_handler handlers category) other =
        lookupHandler handlers other) ∧
    (∀ (handlers : List (String × Handler)) (category : String),
      lookupHandler handlers category = none →
      unregister_handler handlers category = handlers) := by
  refine ⟨?_, ?_, ?_⟩
  · intro handlers category
    unfold lookupHandler unregister_handler
    have hfind : List.find? (fun p => p.1 == category)
        (handlers.filter (fun p => !(p.1 == category))) = none := by
      rw [List.find?_eq_none]
      intro p hp
      have := (List.mem_filter.mp hp).2
      simp_all
    rw [hfind]
    rfl
  · intro handlers category other hne
    unfold lookupHandler unregister_handler
    induction handlers with
    | nil => rfl
    | cons p t ih =>
      by_cases hp : p.1 = category
      · have h1 : (!(p.1 == category)) = false := by simp [hp]
        have h2 : (p.1 == other) = false := by
          rw [hp]
          exact beq_eq_false_iff_ne.mpr (Ne.symm hne)
        rw [List.filter_cons, h1, if_neg (by simp), List.find?_cons, h2]
        exact ih
      · have h1 : (!(p.1 == category)) = true := by simp [hp]
        by_cases hpo : p.1 = other
        · have h2 : (p.1 == other) = true := by simp [hpo]
          rw [List.filter_cons, h1, if_pos rfl, List.find?_cons, h2, List.find?_cons, h2]
        · have h2 : (p.1 == other) = false := by simp [hpo]
          rw [List.filter_cons, h1, if_pos rfl, List.find?_cons, h2, List.find?_cons, h2]
          exact ih
  · intro handlers category hnone
    unfold lookupHandler at hnone
    have hfind : handlers.find? (fun p => p.1 == category) = none := by
      rcases h : (handlers.find? (fun p => p.1 == category)) with _ | v
      · exact h
      · rw [h] at hnone; simp at hnone
    have hall := List.find?_eq_none.mp hfind
    unfold unregister_handler
    rw [List.filter_eq_self]
    intro p hp
    simpa using hall p hp

/-- C9 witness: removing a registered category keeps the other entry and
removing an unknown category is the identity. -/
theorem unregister_handler_total_witness :
    lookupHandler (unregister_handler
        [("a", fun _ => Except.ok { messages := [] }),
         ("b", fun _ => Except.ok { messages := [] })] "a") "b" =
      lookupHandler
        [("a", fun _ => Except.ok { messages := [] }),
         ("b", fun _ => Except.ok { messages := [] })] "b" :=
  unregister_handler_total.2.1
    [("a", fun _ => Except.ok { messages := [] }),
     ("b", fun _ => Except.ok { messages := [] })] "a" "b" (by decide)

/-! Node-shape lemmas for the workflow. -/

theorem lastContent_workflow (s : AgentState) (w : Option String) :
    lastContent { s with workflow_step := w } = lastContent s := rfl

theorem lastContent_concat (s : AgentState) (l : List Message) (m : Message)
    (h : s.messages = l ++ [m]) : lastContent s = m.content := by
  unfold lastContent
  rw [h]
  simp

theorem classify_node_messages (cfg : AgentConfig) (oracle : Oracle) (s : AgentState) :
    (classify_node cfg oracle s).messages = s.messages := by
  unfold classify_node
  dsimp only
  split <;> split <;> rfl

theorem classify_node_eq (cfg : AgentConfig) (oracle : Oracle) (s : AgentState)
    (h : ¬cfg.classification_categories.isEmpty) :
    classify_node cfg oracle s =
      { s with
          workflow_step := some "classify",
          missing_requirements := [],
          category := some (classify_message_with_llm oracle (lastContent s)
            cfg.classification_categories) } := by
  unfold classify_node
  dsimp only
  rw [if_neg h]
  split <;> rfl

theorem classify_node_empty_eq (cfg : AgentConfig) (oracle : Oracle) (s : AgentState)
    (h : cfg.classification_categories.isEmpty) :
    classify_node cfg oracle s =
      { s with
          workflow_step := some "classify",
          missing_requirements := [],
          category := some "default" } := by
  unfold classify_node
  dsimp only
  rw [if_pos h]
  split <;> rfl

theorem check_requirements_node_met (cfg : AgentConfig) (oracle : Oracle) (s : AgentState)
    (missing : List String)
    (h : check_requirements_with_llm oracle (lastContent s) s.category
      cfg.category_requirements s.messages = (true, missing)) :
    check_requirements_node cfg oracle s =
      { s with
          workflow_step := some "check_requirements",
          missing_requirements := missing } := by
  unfold check_requirements_node
  dsimp only
  rw [lastContent_workflow, h]
  simp

theorem check_requirements_node_messages (cfg : AgentConfig) (oracle : Oracle) (s : AgentState) :
    ∃ t, (check_requirements_node cfg oracle s).messages = s.messages ++ t := by
  unfold check_requirements_node
  dsimp only
  split
  · exact ⟨[], by simp⟩
  · split
    · next h =>
      refine ⟨_, rfl⟩
    · refine ⟨_, rfl⟩

theorem route_node_messages (s : AgentState) : (route_node s).messages = s.messages := rfl

theorem execute_handler_node_messages (cfg : AgentConfig) (s s' : AgentState)
    (h : execute_handler_node cfg s = Except.ok s') :
    ∃ t, s'.messages = s.messages ++ t := by
  unfold execute_handler_node at h
  dsimp only at h
  split at h
  · exact ⟨[], by cases h; simp⟩
  · split at h
    · exact ⟨[], by cases h; simp⟩
    · split at h
      · exact absurd h (by simp)
      · next response heq =>
        refine ⟨response.messages, ?_⟩
        cases h
        rfl

theorem generate_response_node_eq (cfg : AgentConfig) (oracle : Oracle) (s : AgentState) :
    generate_response_node cfg oracle s =
      { s with
          workflow_step := some "generate_response",
          messages := s.messages ++ [{ role := Role.assistant, content := generate_response cfg oracle s.messages }] } := rfl

theorem score_confidence_node_messages (cfg : AgentConfig) (s : AgentState) :
    (score_confidence_node cfg s).messages = s.messages := by
  unfold score_confidence_node
  dsimp only
  split <;> rfl

theorem escalate_node_eq (cfg : AgentConfig) (s : AgentState) :
    escalate_node cfg s =
      { s with
          workflow_step := some "escalate",
          messages := s.messages.dropLast ++ (cfg.handle_low_confidence { s with workflow_step := some "escalate" }).messages } := rfl

theorem generate_score_escalate_messages (cfg : AgentConfig) (oracle : Oracle) (s : AgentState) :
    ∃ t, (generate_score_escalate cfg oracle s).messages = s.messages ++ t := by
  unfold generate_score_escalate
  dsimp only
  split
  · rw [escalate_node_eq]
    dsimp only
    rw [score_confidence_node_messages, generate_response_node_eq]
    dsimp only
    rw [List.dropLast_concat]
    exact ⟨_, rfl⟩
  · rw [score_confidence_node_messages, generate_response_node_eq]
    exact ⟨_, rfl⟩

theorem run_workflow_messages (cfg : AgentConfig) (oracle : Oracle) (s s' : AgentState)
    (h : run_workflow cfg oracle s = Except.ok s') :
    ∃ t, s'.messages = s.messages ++ t := by
  unfold run_workflow at h
  dsimp only at h
  split at h
  · split at h
    · split at h
      · obtain ⟨t1, ht1⟩ := execute_handler_node_messages cfg _ s' h
        obtain ⟨t2, ht2⟩ := check_requirements_node_messages cfg oracle
          (classify_node cfg oracle s)
        rw [route_node_messages, ht2, classify_node_messages] at ht1
        exact ⟨t2 ++ t1, by simpa using ht1⟩
      · cases h
        obtain ⟨t1, ht1⟩ := generate_score_escalate_messages cfg oracle
          (route_node (check_requirements_node cfg oracle (classify_node cfg oracle s)))
        obtain ⟨t2, ht2⟩ := check_requirements_node_messages cfg oracle
          (classify_node cfg oracle s)
        rw [route_node_messages, ht2, classify_node_messages] at ht1
        exact ⟨t2 ++ t1, by simpa using ht1⟩
    · cases h
      obtain ⟨t2, ht2⟩ := check_requirements_node_messages cfg oracle (classify_node cfg oracle s)
      rw [classify_node_messages] at ht2
      exact ⟨t2, ht2⟩
  · cases h
    obtain ⟨t1, ht1⟩ := generate_score_escalate_messages cfg oracle (classify_node cfg oracle s)
    rw [classify_node_messages] at ht1
    exact ⟨t1, ht1⟩

theorem chat_turn_messages (cfg : AgentConfig) (oracle : Oracle) (prior : AgentState)
    (message : String) (s' : AgentState)
    (h : chat_turn cfg oracle prior message = Except.ok s') :
    ∃ t, s'.messages =
      prior.messages ++ { role := Role.user, content := pyStrip message } :: t := by
  obtain ⟨t, ht⟩ := run_workflow_messages cfg oracle (appended_state prior message) s' h
  unfold appended_state at ht
  dsimp only at ht
  exact ⟨t, by simpa using ht⟩


/-! C8 — the message sequence is append-only. -/

/-- C8: every workflow node leaves the message sequence unchanged or
appends at its end, with the single exception of the escalation node,
which replaces the last (just-appended) message with the escalation
handler messages; consequently a whole turn extends the pre-turn
messages with the appended user message and further appended messages,
preserving every pre-turn message verbatim and in order. -/
theorem messages_append_only :
    (∀ (cfg : AgentConfig) (oracle : Oracle) (s : AgentState),
      (classify_node cfg oracle s).messages = s.messages) ∧
    (∀ (cfg : AgentConfig) (oracle : Oracle) (s : AgentState),
      ∃ t, (check_requirements_node cfg oracle s).messages = s.messages ++ t) ∧
    (∀ s : AgentState, (route_node s).messages = s.messages) ∧
    (∀ (cfg : AgentConfig) (s s' : AgentState),
      execute_handler_node cfg s = Except.ok s' → ∃ t, s'.messages = s.messages ++ t) ∧
    (∀ (cfg : AgentConfig) (oracle : Oracle) (s : AgentState),
      ∃ t, (generate_response_node cfg oracle s).messages = s.messages ++ t) ∧
    (∀ (cfg : AgentConfig) (s : AgentState),
      (score_confidence_node cfg s).messages = s.messages) ∧
    (∀ (cfg : AgentConfig) (s : AgentState),
      (escalate_node cfg s).messages = s.messages.dropLast ++
        (cfg.handle_low_confidence { s with workflow_step := some "escalate" }).messages) ∧
    (∀ (cfg : AgentConfig) (oracle : Oracle) (prior : AgentState) (message : String)
        (s' : AgentState),
      chat_turn cfg oracle prior message = Except.ok s' →
      ∃ t, s'.messages =
        prior.messages ++ { role := Role.user, content := pyStrip message } :: t) := by
  refine ⟨classify_node_messages, check_requirements_node_messages, route_node_messages,
    execute_handler_node_messages, ?_, score_confidence_node_messages, ?_,
    chat_turn_messages⟩
  · intro cfg oracle s
    rw [generate_response_node_eq]
    exact ⟨_, rfl⟩
  · intro cfg s
    rw [escalate_node_eq]

/-- C8 witness: a concrete turn whose result extends the empty prior
history with the user message and the generated reply. -/
theorem messages_append_only_witness :
    ∃ t, wresult.messages = ([] : List Message) ++
      { role := Role.user, content := pyStrip "hi" } :: t :=
  messages_append_only.2.2.2.2.2.2.2 wcfg woracle {} "hi" wresult rfl

/-! C10 — the stored user message is the stripped input. -/

/-- C10: on every successful turn, the user message the turn appended at
position `prior.messages.length` carries exactly the whitespace-stripped
input text, and a stripped text neither starts nor ends with a
whitespace character. -/
theorem user_message_trimmed (cfg : AgentConfig) (oracle : Oracle) (prior : AgentState)
    (message : String) (s' : AgentState)
    (h : chat_turn cfg oracle prior message = Except.ok s') :
    s'.messages[prior.messages.length]? =
      some { role := Role.user, content := pyStrip message } ∧
    (∀ c, (pyStrip message).data.head? = some c → pyIsSpace c = false) ∧
    (∀ c, (pyStrip message).data.getLast? = some c → pyIsSpace c = false) := by
  refine ⟨?_, fun c hc => pyStrip_head_not_space message c hc,
    fun c hc => pyStrip_getLast_not_space message c hc⟩
  obtain ⟨t, ht⟩ := chat_turn_messages cfg oracle prior message s' h
  rw [ht, List.getElem?_append_right (Nat.le_refl _)]
  simp

/-- C10 witness: a raw input with surrounding whitespace is stored
stripped. -/
theorem user_message_trimmed_witness :
    wresult.messages[(0 : Nat)]? = some { role := Role.user, content := pyStrip "  hi  " } ∧
    (∀ c, (pyStrip "  hi  ").data.head? = some c → pyIsSpace c = false) ∧
    (∀ c, (pyStrip "  hi  ").data.getLast? = some c → pyIsSpace c = false) :=
  user_message_trimmed wcfg woracle {} "  hi  " wresult rfl

/-! C2 — escalation replaces the low-confidence draft. -/

/-- C2: whenever confidence scoring flags the generated draft
(`mkRat resp.length 100 < threshold` sets `needs_escalation`), the
escalate step replaces the just-appended draft with the escalation
handler messages rather than appending after it: the resulting sequence
is the pre-generation messages followed by the handler messages, the
draft is absent from the result (unless it already occurred before or
the handler itself returns it), and the text extracted for the turn is
the last escalation message. -/
theorem escalation_replaces_draft (cfg : AgentConfig) (oracle : Oracle) (s : AgentState)
    (resp : String) (esc : List Message)
    (hresp : generate_response cfg oracle s.messages = resp)
    (hesc : (cfg.handle_low_confidence
      { score_confidence_node cfg (generate_response_node cfg oracle s) with
          workflow_step := some "escalate" }).messages = esc)
    (hlow : mkRat resp.length 100 < cfg.confidence_threshold) :
    (score_confidence_node cfg (generate_response_node cfg oracle s)).needs_escalation = true ∧
    (generate_score_escalate cfg oracle s).messages = s.messages ++ esc ∧
    (({ role := Role.assistant, content := resp } : Message) ∉ s.messages →
      ({ role := Role.assistant, content := resp } : Message) ∉ esc →
      ({ role := Role.assistant, content := resp } : Message) ∉
        (generate_score_escalate cfg oracle s).messages) ∧
    (esc ≠ [] → extract_response (generate_score_escalate cfg oracle s) =
      (esc.getLastD { role := Role.assistant, content := "" }).content) := by
  have hgen : generate_response_node cfg oracle s =
      { s with
          workflow_step := some "generate_response",
          messages := s.messages ++ [{ role := Role.assistant, content := resp }] } := by
    rw [generate_response_node_eq, hresp]
  have hscore : score_confidence_node cfg (generate_response_node cfg oracle s) =
      { s with
          workflow_step := some "score_confidence",
          messages := s.messages ++ [{ role := Role.assistant, content := resp }],
          confidence := some (mkRat resp.length 100),
          needs_escalation := true } := by
    rw [hgen]
    unfold score_confidence_node
    dsimp only
    rw [if_neg (by simp)]
    rw [lastContent_concat _ s.messages { role := Role.assistant, content := resp } rfl]
    simp only [decide_eq_true hlow]
  rw [hscore] at hesc
  have hmsgs : (generate_score_escalate cfg oracle s).messages = s.messages ++ esc := by
    unfold generate_score_escalate
    dsimp only
    rw [hscore]
    rw [if_pos rfl, escalate_node_eq]
    dsimp only
    rw [List.dropLast_concat]
    rw [← hesc]
  refine ⟨by rw [hscore], hmsgs, ?_, ?_⟩
  · intro h1 h2
    rw [hmsgs]
    intro hmem
    rcases List.mem_append.mp hmem with hmem | hmem
    · exact h1 hmem
    · exact h2 hmem
  · intro hne
    unfold extract_response
    rw [hmsgs, List.getLast?_append_of_ne_nil _ hne]
    rw [List.getLastD_eq_getLast?]
    cases hl : esc.getLast? with
    | none => exact absurd (List.getLast?_eq_none_iff.mp hl) hne
    | some m => rfl

/-- C2 witness: a two-character draft scores 2/100 below the default
7/10 threshold, is replaced by the default escalation message, and that
message is the turn text. -/
theorem escalation_replaces_draft_witness :
    (generate_score_escalate
      { wcfg with confidence_threshold := mkRat 7 10 } woracle
      { messages := [{ role := Role.user, content := "hello" }] }).messages =
      [{ role := Role.user, content := "hello" }] ++
        [{ role := Role.assistant, content := "Your request is being reviewed by our team and we\x27ll get back to you shortly." }] :=
  (escalation_replaces_draft { wcfg with confidence_threshold := mkRat 7 10 } woracle
    { messages := [{ role := Role.user, content := "hello" }] } "ok"
    [{ role := Role.assistant, content := "Your request is being reviewed by our team and we\x27ll get back to you shortly." }]
    rfl rfl (by decide)).2.1

/-! C5 — registered handlers are trusted: no scoring, no escalation. -/

/-- C5: when classification yields a real category with satisfied
requirements and a registered handler, the turn appends exactly the
handler messages and terminates: the result carries the handler
messages, its `confidence` and `needs_escalation` are the prior values
untouched, and the last executed step is `execute_handler` — the
scoring and escalation nodes never run on handler output. -/
theorem handler_trust (cfg : AgentConfig) (oracle : Oracle) (prior : AgentState)
    (message c : String) (h : Handler) (hr : HandlerResponse)
    (hcats : ¬cfg.classification_categories.isEmpty)
    (hcls : classify_message_with_llm oracle (pyStrip message)
      cfg.classification_categories = c)
    (hc1 : c ≠ "default") (hc2 : c ≠ "")
    (hchk : check_requirements_with_llm oracle (pyStrip message) (some c)
      cfg.category_requirements
      (prior.messages ++ [{ role := Role.user, content := pyStrip message }]) = (true, []))
    (hh : lookupHandler cfg.handlers c = some h)
    (hrun : h { prior with
        messages := prior.messages ++ [{ role := Role.user, content := pyStrip message }],
        category := some c,
        missing_requirements := [],
        workflow_step := some "execute_handler" } = Except.ok hr) :
    chat_turn cfg oracle prior message = Except.ok { prior with
        messages := (prior.messages ++
          [{ role := Role.user, content := pyStrip message }]) ++ hr.messages,
        category := some c,
        missing_requirements := [],
        workflow_step := some "execute_handler" } ∧
    (∀ s', chat_turn cfg oracle prior message = Except.ok s' →
      s'.confidence = prior.confidence ∧ s'.needs_escalation = prior.needs_escalation ∧
      s'.workflow_step = some "execute_handler") := by
  have husr : (appended_state prior message).messages =
      prior.messages ++ [{ role := Role.user, content := pyStrip message }] := rfl
  have hlast : lastContent (appended_state prior message) = pyStrip message :=
    lastContent_concat _ prior.messages _ husr
  have h1 : classify_node cfg oracle (appended_state prior message) =
      { prior with
          messages := prior.messages ++ [{ role := Role.user, content := pyStrip message }],
          workflow_step := some "classify",
          missing_requirements := [],
          category := some c } := by
    rw [classify_node_eq cfg oracle _ hcats, hlast, hcls]
    rfl
  have hcbeq1 : (c == "") = false := beq_eq_false_iff_ne.mpr hc2
  have hcbeq2 : (c == "default") = false := beq_eq_false_iff_ne.mpr hc1
  have hmain : chat_turn cfg oracle prior message = Except.ok { prior with
      messages := (prior.messages ++
        [{ role := Role.user, content := pyStrip message }]) ++ hr.messages,
      category := some c,
      missing_requirements := [],
      workflow_step := some "execute_handler" } := by
    unfold chat_turn run_workflow
    dsimp only
    rw [h1]
    have hsc : should_check_requirements cfg
        { prior with
            messages := prior.messages ++ [{ role := Role.user, content := pyStrip message }],
            workflow_step := some "classify",
            missing_requirements := [],
            category := some c } = true := by
      unfold should_check_requirements
      dsimp only
      rw [hcbeq1, hcbeq2]
      simp [hcats]
    rw [if_pos hsc]
    have hchk2 : check_requirements_node cfg oracle
        { prior with
            messages := prior.messages ++ [{ role := Role.user, content := pyStrip message }],
            workflow_step := some "classify",
            missing_requirements := [],
            category := some c } =
        { prior with
            messages := prior.messages ++ [{ role := Role.user, content := pyStrip message }],
            workflow_step := some "check_requirements",
            missing_requirements := [],
            category := some c } := by
      rw [check_requirements_node_met cfg oracle _ []]
      rw [lastContent_concat _ prior.messages { role := Role.user, content := pyStrip message } rfl]
      exact hchk
    rw [hchk2]
    rw [if_pos (by rfl)]
    have hhc : has_custom_handler cfg (route_node
        { prior with
            messages := prior.messages ++ [{ role := Role.user, content := pyStrip message }],
            workflow_step := some "check_requirements",
            missing_requirements := [],
            category := some c }) = true := by
      unfold has_custom_handler route_node
      dsimp only
      rw [hcbeq1, hh]
      simp
    rw [if_pos hhc]
    unfold execute_handler_node route_node
    dsimp only
    rw [hh]
    dsimp only
    rw [hrun]
  refine ⟨hmain, ?_⟩
  intro s' hs'
  rw [hmain] at hs'
  cases hs'
  exact ⟨rfl, rfl, rfl⟩

/-- C5 witness: a registered `Billing` handler runs on a classified
`Billing` turn with no requirements; its message is appended and the
prior confidence state is untouched. -/
theorem handler_trust_witness :
    chat_turn
      { wcfg with
          classification_categories := ["Billing"],
          handlers := [("Billing", fun _ => Except.ok { messages := [{ role := Role.assistant, content := "handled" }] })] }
      (fun _ => Except.ok "Billing") {} "pay my bill" =
      Except.ok { ({} : AgentState) with
        messages := ([] ++ [{ role := Role.user, content := pyStrip "pay my bill" }]) ++
          [{ role := Role.assistant, content := "handled" }],
        category := some "Billing",
        missing_requirements := [],
        workflow_step := some "execute_handler" } :=
  (handler_trust
    { wcfg with
        classification_categories := ["Billing"],
        handlers := [("Billing", fun _ => Except.ok { messages := [{ role := Role.assistant, content := "handled" }] })] }
    (fun _ => Except.ok "Billing") {} "pay my bill" "Billing"
    (fun _ => Except.ok { messages := [{ role := Role.assistant, content := "handled" }] })
    { messages := [{ role := Role.assistant, content := "handled" }] }
    (by decide) rfl (by decide) (by decide) rfl rfl rfl).1

/-! C6 — handler exceptions: node-level propagation, chat-level masking. -/


/-- C6 counterexample: with a raising `Billing` handler, `chat` does not
propagate the handler exception to its caller — the blanket exception
handler around the workflow run converts it into the generic apology
text, contradicting the claim that handler errors are propagated out of
`chat`. -/
theorem handler_error_masked_cex :
    chat c6cfg (fun _ => Except.ok "Billing") none "I have a billing problem" "u1" =
      Except.ok workflowErrorApology ∧
    chat c6cfg (fun _ => Except.ok "Billing") none "I have a billing problem" "u1" ≠
      Except.error "Handler error" :=
  ⟨rfl, by
    simp only [show chat c6cfg (fun _ => Except.ok "Billing") none
      "I have a billing problem" "u1" = Except.ok workflowErrorApology from rfl]
    simp⟩

/-- C6 amended: a handler exception propagates uncaught out of the
handler-execution node (`_execute_handler_node` has no handler for it),
but `chat` wraps the whole workflow run in a catch-all that converts any
workflow exception — handler errors included — into the fixed apology
text instead of re-raising it to the caller. -/
theorem handler_error_propagation_amended :
    (∀ (cfg : AgentConfig) (s : AgentState) (c : String) (h : Handler) (e : String),
      s.category = some c →
      lookupHandler cfg.handlers c = some h →
      h { s with workflow_step := some "execute_handler" } = Except.error e →
      execute_handler_node cfg s = Except.error e) ∧
    (∀ (cfg : AgentConfig) (oracle : Oracle) (prior : AgentState) (message user_id e : String),
      chat_turn cfg oracle prior message = Except.error e →
      pyStrip message ≠ "" → pyStrip user_id ≠ "" →
      chat cfg oracle (some prior) message user_id = Except.ok workflowErrorApology) := by
  constructor
  · intro cfg s c h e hcat hh hrun
    unfold execute_handler_node
    dsimp only
    rw [hcat]
    dsimp only
    rw [hh]
    dsimp only
    have hrun2 : h
        { messages := s.messages,
          category := some c,
          missing_requirements := s.missing_requirements,
          requirement_attempts := s.requirement_attempts,
          confidence := s.confidence,
          needs_escalation := s.needs_escalation,
          workflow_step := some "execute_handler" } = Except.error e := by
      rw [← hcat]
      exact hrun
    rw [hrun2]
  · intro cfg oracle prior message user_id e hturn h1 h2
    unfold chat
    rw [if_neg h1, if_neg h2]
    dsimp only
    rw [hturn]

/-- C6 amended witness: the error raised by the handler leaves the node as
an exception, and the surrounding `chat` call returns the apology. -/
theorem handler_error_propagation_amended_witness :
    execute_handler_node c6cfg
      { messages := [{ role := Role.user, content := "I have a billing problem" }],
        category := some "Billing" } = Except.error "Handler error" ∧
    chat c6cfg (fun _ => Except.ok "Billing") (some {}) "I have a billing problem" "u1" =
      Except.ok workflowErrorApology :=
  ⟨handler_error_propagation_amended.1 c6cfg
      { messages := [{ role := Role.user, content := "I have a billing problem" }],
        category := some "Billing" } "Billing" (fun _ => Except.error "Handler error")
      "Handler error" rfl rfl rfl,
    handler_error_propagation_amended.2 c6cfg (fun _ => Except.ok "Billing") {}
      "I have a billing problem" "u1" "Handler error" rfl (by decide) (by decide)⟩

/-! C7 — oracle failure during generation. -/


/-- C7 counterexample: an oracle failure during generation is converted
by `_generate_response` into the text `Error: <detail>` — not a generic
apology — and with the default 0.7 threshold that text scores 72/100,
passes confidence, and is returned verbatim by `chat`, so error detail
does reach the caller, contradicting the claim that the only failure
text ever returned is a neutral apology. -/
theorem generation_error_text_cex :
    chat { wcfg with confidence_threshold := mkRat 7 10 } (fun _ => Except.error c7detail)
      none "hello" "u1" = Except.ok ("Error: " ++ c7detail) ∧
    "Error: " ++ c7detail ≠ workflowErrorApology ∧
    "Error: " ++ c7detail ≠ "I apologize, but I couldn\x27t process your request." :=
  ⟨rfl, by decide, by decide⟩

/-- C7 amended: an oracle failure during generation never escapes as an
exception — `_generate_response` catches it and returns the text
`Error: <detail>` as the draft reply (which is then confidence-scored
like any draft), and `chat` returns `Except.ok` text for every valid
input — but that text is not restricted to a neutral apology. -/
theorem generation_failure_soft_amended :
    (∀ (cfg : AgentConfig) (oracle : Oracle) (messages : List Message) (e : String),
      oracle (generateResponsePrompt cfg messages) = Except.error e →
      generate_response cfg oracle messages = "Error: " ++ e) ∧
    (∀ (cfg : AgentConfig) (oracle : Oracle) (prior : Option AgentState)
        (message user_id : String),
      pyStrip message ≠ "" → pyStrip user_id ≠ "" →
      ∃ t, chat cfg oracle prior message user_id = Except.ok t) := by
  constructor
  · intro cfg oracle messages e h
    unfold generate_response
    rw [h]
  · intro cfg oracle prior message user_id h1 h2
    unfold chat
    rw [if_neg h1, if_neg h2]
    dsimp only
    cases prior with
    | none =>
      rcases hres : chat_turn cfg oracle {} message with e | r
      · exact ⟨workflowErrorApology, rfl⟩
      · exact ⟨extract_response r, rfl⟩
    | some p =>
      rcases hres : chat_turn cfg oracle p message with e | r
      · exact ⟨workflowErrorApology, rfl⟩
      · exact ⟨extract_response r, rfl⟩

/-- C7 amended witness: a failing oracle yields the `Error: ` draft, and
`chat` still returns `Except.ok` text. -/
theorem generation_failure_soft_amended_witness :
    generate_response wcfg (fun _ => Except.error "boom") [] = "Error: " ++ "boom" ∧
    (∃ t, chat wcfg woracle none "hi" "u1" = Except.ok t) :=
  ⟨generation_failure_soft_amended.1 wcfg (fun _ => Except.error "boom") [] "boom" rfl,
    generation_failure_soft_amended.2 wcfg woracle none "hi" "u1" (by decide) (by decide)⟩

/-! C1 — the per-category escalation ceiling of the `src/src` revision. -/

theorem find?_key_cons (p : String × Nat) (t : List (String × Nat)) (k : String) :
    List.find? (fun q => q.1 == k) (p :: t) =
      (if (p.1 == k) = true then some p else List.find? (fun q => q.1 == k) t) := by
  rw [List.find?_cons]
  rcases h : (p.1 == k) with _ | _
  · rw [if_neg (by simp [h])]
  · rw [if_pos rfl]

theorem dictGetD_cons_pos (p : String × Nat) (t : List (String × Nat)) (k : String)
    (hb : (p.1 == k) = true) : dictGetD (p :: t) k 0 = p.2 := by
  unfold dictGetD
  rw [find?_key_cons, if_pos hb]

theorem dictGetD_cons_neg (p : String × Nat) (t : List (String × Nat)) (k : String)
    (hb : (p.1 == k) = false) : dictGetD (p :: t) k 0 = dictGetD t k 0 := by
  unfold dictGetD
  rw [find?_key_cons, if_neg (by simp [hb])]

theorem dictGetD_map_update (k : String) (v : Nat) :
    ∀ d : List (String × Nat), (d.find? (fun p => p.1 == k)).isSome = true →
      dictGetD (d.map (fun p => if p.1 == k then (p.1, v) else p)) k 0 = v := by
  intro d
  induction d with
  | nil => intro hsome; simp at hsome
  | cons p t ih =>
    intro hsome
    rw [List.map_cons]
    by_cases hp : (p.1 == k) = true
    · rw [if_pos hp, dictGetD_cons_pos (p.1, v) _ k hp]
    · have hb : (p.1 == k) = false := by simpa using hp
      rw [if_neg (by simp [hb]), dictGetD_cons_neg p _ k hb]
      rw [find?_key_cons, if_neg (by simp [hb])] at hsome
      exact ih hsome

theorem dictGetD_append_new (k : String) (v : Nat) :
    ∀ d : List (String × Nat), d.find? (fun p => p.1 == k) = none →
      dictGetD (d ++ [(k, v)]) k 0 = v := by
  intro d
  induction d with
  | nil =>
    intro _
    rw [List.nil_append, dictGetD_cons_pos (k, v) [] k (by simp)]
  | cons p t ih =>
    intro hfind
    have hb : (p.1 == k) = false := by
      rcases h : (p.1 == k) with _ | _
      · rfl
      · rw [find?_key_cons, if_pos h] at hfind
        simp at hfind
    rw [find?_key_cons, if_neg (by simp [hb])] at hfind
    rw [List.cons_append, dictGetD_cons_neg p _ k hb]
    exact ih hfind

theorem dictGetD_dictInsert_self (d : List (String × Nat)) (k : String) (v : Nat) :
    dictGetD (dictInsert d k v) k 0 = v := by
  unfold dictInsert
  split
  · next hsome => exact dictGetD_map_update k v d hsome
  · next hnone =>
    refine dictGetD_append_new k v d ?_
    rcases h : d.find? (fun p => p.1 == k) with _ | v2
    · exact h
    · rw [h] at hnone; simp at hnone

/-- C1: in the `src/src` revision, every unsatisfied requirement check
increments the per-category attempt counter
`requirement_attempts["check_requirements_<category>_requirements"]`;
while the incremented count is at most the ceiling of 2 the node appends
one clarification question (1st and 2nd unsatisfied check, no
escalation), and as soon as it exceeds 2 (the 3rd unsatisfied check) the
node instead invokes `handle_low_confidence`, appends its messages and
sets `needs_escalation`; the classify node resets the attempt dictionary
to empty exactly when a new topic is detected and preserves it otherwise,
so counts persist across same-topic turns. -/
theorem escalation_ceiling (cfg : AgentConfig) (oracle : Oracle) (s : AgentState)
    (missing : List String) (key : String) (n : Nat)
    (hchk : check_requirements_with_llm oracle (lastContent s) s.category
      cfg.category_requirements s.messages = (false, missing))
    (hkey : key = "check_requirements_" ++ optStr s.category ++ "_requirements")
    (hn : dictGetD s.requirement_attempts key 0 = n) :
    dictGetD (check_requirements_node_v2 cfg oracle s).requirement_attempts key 0 = n + 1 ∧
    (n + 1 ≤ 2 →
      (check_requirements_node_v2 cfg oracle s).messages = s.messages ++
        [{ role := Role.assistant, content :=
          generate_missing_requirements_response_v2 s.category missing (lastContent s) }] ∧
      (check_requirements_node_v2 cfg oracle s).needs_escalation = s.needs_escalation) ∧
    (n + 1 > 2 →
      (check_requirements_node_v2 cfg oracle s).needs_escalation = true ∧
      (check_requirements_node_v2 cfg oracle s).messages = s.messages ++
        (cfg.handle_low_confidence
          { s with
              workflow_step := some "check_requirements",
              missing_requirements := missing,
              requirement_attempts := dictInsert s.requirement_attempts key (n + 1),
              needs_escalation := true }).messages) ∧
    (∀ t : AgentState, is_new_conversation_thread oracle t = true →
      (classify_node_v2 cfg oracle t).requirement_attempts = []) ∧
    (∀ t : AgentState, is_new_conversation_thread oracle t = false →
      (classify_node_v2 cfg oracle t).requirement_attempts = t.requirement_attempts) := by
  have hkey2 : (optStr (some "check_requirements") ++ "_" ++ optStr s.category ++
      "_requirements") = key := by
    rw [hkey]
    rfl
  have hnode : check_requirements_node_v2 cfg oracle s =
      (if dictGetD (dictInsert s.requirement_attempts key (n + 1)) key 0 > 2 then
        { s with
            workflow_step := some "check_requirements",
            missing_requirements := missing,
            requirement_attempts := dictInsert s.requirement_attempts key (n + 1),
            needs_escalation := true,
            messages := s.messages ++
              (cfg.handle_low_confidence
                { s with
                    workflow_step := some "check_requirements",
                    missing_requirements := missing,
                    requirement_attempts := dictInsert s.requirement_attempts key (n + 1),
                    needs_escalation := true }).messages }
      else
        { s with
            workflow_step := some "check_requirements",
            missing_requirements := missing,
            requirement_attempts := dictInsert s.requirement_attempts key (n + 1),
            messages := s.messages ++
              [{ role := Role.assistant, content :=
                generate_missing_requirements_response_v2 s.category missing
                  (lastContent s) }] }) := by
    unfold check_requirements_node_v2
    dsimp only
    rw [lastContent_workflow, hchk]
    dsimp only
    rw [if_neg (by simp), hkey2, hn]
  have hcount : dictGetD (dictInsert s.requirement_attempts key (n + 1)) key 0 = n + 1 :=
    dictGetD_dictInsert_self s.requirement_attempts key (n + 1)
  refine ⟨?_, ?_, ?_, ?_, ?_⟩
  · rw [hnode]
    split
    · simpa using hcount
    · simpa using hcount
  · intro hle
    have hcond : ¬(dictGetD (dictInsert s.requirement_attempts key (n + 1)) key 0 > 2) := by
      rw [hcount]
      exact Nat.not_lt.mpr hle
    rw [hnode, if_neg hcond]
    exact ⟨rfl, rfl⟩
  · intro hgt
    have hcond : dictGetD (dictInsert s.requirement_attempts key (n + 1)) key 0 > 2 := by
      rw [hcount]
      exact hgt
    rw [hnode, if_pos hcond]
    exact ⟨rfl, rfl⟩
  · intro t ht
    unfold classify_node_v2
    dsimp only
    rw [lastContent_workflow]
    rw [show is_new_conversation_thread oracle
      { t with workflow_step := some "classify" } = true from ht]
    split <;> rfl
  · intro t ht
    unfold classify_node_v2
    dsimp only
    rw [lastContent_workflow]
    rw [show is_new_conversation_thread oracle
      { t with workflow_step := some "classify" } = false from ht]
    split <;> rfl


/-- C1 witness: on the third unsatisfied check for `Billing` the counter
reaches 3 and the node escalates instead of asking again. -/
theorem escalation_ceiling_witness :
    dictGetD (check_requirements_node_v2 c1cfg c1oracle c1state).requirement_attempts
      "check_requirements_Billing_requirements" 0 = 3 ∧
    (check_requirements_node_v2 c1cfg c1oracle c1state).needs_escalation = true := by
  have h := escalation_ceiling c1cfg c1oracle c1state ["account_number"]
    "check_requirements_Billing_requirements" 2 rfl rfl rfl
  exact ⟨h.1, (h.2.2.1 (by decide)).1⟩

end Agentic
